import Mathlib

/-!
# Verification of the tplink-cloud-cli device-resolution and signing layer

A shallow embedding, in Lean 4, of the pure control-flow core of the
`tplink-cloud-cli` Rust program: the cloud-request signing scheme
(`src/api/signing.rs`), the cloud-response handling of the account client
(`src/api/client.rs`), the device passthrough client
(`src/api/device_client.rs`), the device-kind model table
(`src/models/device_type.rs`), the device handle (`src/models/device.rs`),
the credential loading (`src/auth/credentials.rs`) and the cross-ecosystem
device catalog and name resolution (`src/resolve.rs`).

Network and keychain I/O is made explicit: every fallible external call is
passed in as an explicit result value (or result-producing function), so each
embedded function is the exact response-handling control flow of its Rust
counterpart.  Rust `String`s are Lean `String`s; `Vec`/slices are `List`s;
machine integers carried by the protocol (`i32` error codes) are `Int`
(no arithmetic is ever performed on them, only comparison); `Result<T, E>`
is `Except E T`; `Option<T>` is `Option T`.
-/

namespace TplcSpec

/-! ## String primitives

Rust `str::starts_with`, `str::contains` and `str::to_lowercase` operate on
the character sequence of a UTF-8 string.  We model them on `List Char`
(`String.data`).  `lowerStr` models `to_lowercase` by per-character
lowercasing (`Char.toLower`); this is exact on ASCII, which is the alphabet
of every alias, identifier and query the program compares.  None of the
resolution theorems depend on the internals of the lowercasing function. -/

/-- `listStartsWith s p = true` iff `p` is a prefix of `s`
(Rust `s.starts_with(p)` on char sequences). -/
def listStartsWith : List Char → List Char → Bool
  | _, [] => true
  | [], _ :: _ => false
  | c :: cs, p :: ps => c == p && listStartsWith cs ps

/-- `listContainsSub hay needle = true` iff `needle` occurs contiguously in
`hay` (Rust `hay.contains(needle)`). -/
def listContainsSub (hay needle : List Char) : Bool :=
  listStartsWith hay needle ||
    match hay with
    | [] => false
    | _ :: rest => listContainsSub rest needle

/-- Rust `s.starts_with(p)`. -/
def strStartsWith (s p : String) : Bool :=
  listStartsWith s.data p.data

/-- Rust `s.to_lowercase()` (ASCII-exact model). -/
def lowerStr (s : String) : String :=
  ⟨s.data.map Char.toLower⟩

/-- Rust `hay.contains(needle)`. -/
def strContains (hay needle : String) : Bool :=
  listContainsSub hay.data needle.data

/-! ## `CloudType` — `src/api/cloud_type.rs` -/

/-- Which TP-Link cloud ecosystem a device belongs to
(`src/api/cloud_type.rs`). -/
inductive CloudType
  | kasa
  | tapo
deriving DecidableEq, Repr

def CloudType.host : CloudType → String
  | .kasa => "https://n-wap.tplinkcloud.com"
  | .tapo => "https://n-wap.i.tplinkcloud.com"

def CloudType.accessKey : CloudType → String
  | .kasa => "e37525375f8845999bcc56d5e6faa76d"
  | .tapo => "4d11b6b9d5ea4d19a829adbb9714b057"

def CloudType.secretKey : CloudType → String
  | .kasa => "314bc6700b3140ca80bc655e527cb062"
  | .tapo => "6ed7d97f3e73467f8a5bab90b577ba4c"

def CloudType.appType : CloudType → String
  | .kasa => "Kasa_Android_Mix"
  | .tapo => "TP-Link_Tapo_Android"

def CloudType.appVersion : CloudType → String
  | _ => "3.4.451"

def CloudType.passthroughPath : CloudType → String
  | .kasa => "/"
  | .tapo => "/api/v2/common/passthrough"

def CloudType.displayName : CloudType → String
  | .kasa => "kasa"
  | .tapo => "tapo"

/-! ## `DeviceType` — `src/models/device_type.rs` -/

inductive DeviceType
  | HS100 | HS103 | HS105 | HS110 | HS200
  | HS300 | HS300Child
  | KP115 | KP125
  | KP200 | KP200Child
  | KP303 | KP303Child
  | KP400 | KP400Child
  | KL420L5 | KL430
  | EP40 | EP40Child
  | Unknown
deriving DecidableEq, Repr

/-- Model prefix to `DeviceType` mapping, in source order
(`MODEL_MAP` in `src/models/device_type.rs`). -/
def MODEL_MAP : List (String × DeviceType) :=
  [("KL420L5", .KL420L5),
   ("KL430", .KL430),
   ("HS100", .HS100),
   ("HS103", .HS103),
   ("HS105", .HS105),
   ("HS110", .HS110),
   ("HS200", .HS200),
   ("HS300", .HS300),
   ("KP115", .KP115),
   ("KP125", .KP125),
   ("KP200", .KP200),
   ("KP303", .KP303),
   ("KP400", .KP400),
   ("EP40", .EP40)]

/-- `DeviceType::from_model`: scan `MODEL_MAP` in order and return the type
bound to the first prefix the model string starts with; `Unknown` if none
matches. -/
def DeviceType.fromModel (model : String) : DeviceType :=
  match MODEL_MAP.find? (fun pt => strStartsWith model pt.1) with
  | some pt => pt.2
  | none => .Unknown

def DeviceType.childType : DeviceType → DeviceType
  | .HS300 => .HS300Child
  | .KP200 => .KP200Child
  | .KP303 => .KP303Child
  | .KP400 => .KP400Child
  | .EP40 => .EP40Child
  | _ => .Unknown

def DeviceType.hasChildren : DeviceType → Bool
  | .HS300 | .KP200 | .KP303 | .KP400 | .EP40 => true
  | _ => false

def DeviceType.hasEmeter : DeviceType → Bool
  | .HS110 | .KP115 | .KP125 | .HS300Child => true
  | _ => false

def DeviceType.isLight : DeviceType → Bool
  | .KL420L5 | .KL430 => true
  | _ => false

def DeviceType.displayName : DeviceType → String
  | .HS100 => "HS100"
  | .HS103 => "HS103"
  | .HS105 => "HS105"
  | .HS110 => "HS110"
  | .HS200 => "HS200"
  | .HS300 => "HS300"
  | .HS300Child => "HS300 Outlet"
  | .KP115 => "KP115"
  | .KP125 => "KP125"
  | .KP200 => "KP200"
  | .KP200Child => "KP200 Outlet"
  | .KP303 => "KP303"
  | .KP303Child => "KP303 Outlet"
  | .KP400 => "KP400"
  | .KP400Child => "KP400 Outlet"
  | .KL420L5 => "KL420L5"
  | .KL430 => "KL430"
  | .EP40 => "EP40"
  | .EP40Child => "EP40 Outlet"
  | .Unknown => "Unknown"

/-! ## `AppError` — `src/error.rs`

The `Http`/`Json`/`Io` variants wrap foreign error types in the source; here
they carry the error's display string. -/

inductive AppError
  | auth (message : String) (errorCode : Option Int)
  | mfaRequired (mfaType : Option String) (email : Option String)
  | tokenExpired (message : String) (errorCode : Option Int)
  | deviceNotFound (s : String)
  | deviceOffline (s : String)
  | api (message : String) (errorCode : Option Int)
  | notAuthenticated
  | keychain (s : String)
  | unsupportedOperation (s : String)
  | invalidInput (s : String)
  | httpErr (s : String)
  | jsonErr (s : String)
  | ioErr (s : String)
deriving DecidableEq, Repr

/-! ## JSON values and the API response envelope — `src/api/response.rs`

`serde_json::Value` is modelled by `Json`; object field order is the
underlying association list.  JSON numbers are modelled as integers: the only
numeric fields the embedded control flow reads are integer business codes. -/

inductive Json
  | null
  | bool (b : Bool)
  | num (n : Int)
  | str (s : String)
  | arr (elems : List Json)
  | obj (fields : List (String × Json))
deriving Repr

/-- `serde_json::Value::get(key)`: `some` only on an object that has the key
(first occurrence). -/
def Json.get : Json → String → Option Json
  | .obj fields, key => (fields.find? (fun f => f.1 == key)).map (·.2)
  | _, _ => none

/-- `serde_json::Value` square-bracket indexing: missing key or non-object
yields `Null`. -/
def Json.index (j : Json) (key : String) : Json :=
  (j.get key).getD .null

/-- `Value::as_str`. -/
def Json.asStr : Json → Option String
  | .str s => some s
  | _ => none

/-- `Value::as_i64` (on our integer-valued number model). -/
def Json.asInt : Json → Option Int
  | .num n => some n
  | _ => none

/-- `Value::as_array`. -/
def Json.asArr : Json → Option (List Json)
  | .arr l => some l
  | _ => none

/-- The cloud response envelope (`ApiResponse` in `src/api/response.rs`). -/
structure ApiResponse where
  errorCode : Int
  result : Option Json
  msg : Option String
deriving Repr

/-- `ApiResponse::successful`. -/
def ApiResponse.successful (r : ApiResponse) : Bool :=
  r.errorCode == 0

/-! ## Business error codes — `src/api/errors.rs`

Modelled from the spec: the constants module `src/api/errors.rs` is not part
of the provided sources (only its uses in `client.rs`/`device_client.rs`
are).  The spec fixes the MFA sentinel at `-20651`; the remaining sentinels
are modelled as distinct nonzero codes, and every theorem below refers to
them symbolically (never to their numeric values), so no result depends on
the particular numbers chosen here. -/

def ERR_MFA_REQUIRED : Int := -20651
def ERR_WRONG_CREDENTIALS : Int := -20601
def ERR_ACCOUNT_LOCKED : Int := -20661
def ERR_TOKEN_EXPIRED : Int := -20675
def ERR_REFRESH_TOKEN_EXPIRED : Int := -20680

/-! ## `DeviceInfo` — `src/models/device_info.rs`

Only the fields the embedded control flow reads are carried.  Parsing from
raw JSON (`DeviceInfo::from_json`, a plain serde decode) is the boundary of
the embedding: device lists enter as already-parsed `DeviceInfo` values. -/

structure DeviceInfo where
  appServerUrl : Option String := none
  deviceId : Option String := none
  deviceName : Option String := none
  alias_ : Option String := none
  deviceModel : Option String := none
  status : Option Int := none
  cloudType : Option CloudType := none
deriving DecidableEq, Repr

/-- `DeviceInfo::alias_or_name`. -/
def DeviceInfo.aliasOrName (d : DeviceInfo) : String :=
  (d.alias_.orElse fun _ => d.deviceName).getD "Unknown"

/-- `DeviceInfo::model`. -/
def DeviceInfo.model (d : DeviceInfo) : String :=
  d.deviceModel.getD "Unknown"

/-- `DeviceInfo::id`. -/
def DeviceInfo.id (d : DeviceInfo) : String :=
  d.deviceId.getD ""

/-- One child (sub-unit) record (`ChildInfo` in `src/models/device.rs`). -/
structure ChildInfo where
  id : String
  alias_ : String
  state : Option Int := none
deriving DecidableEq, Repr

/-- One flattened catalog entry as built by
`collect_devices_for_resolution`: the owning device record, its computed
kind, the sub-unit alias when present, and the sub-unit id when the entry
is a sub-unit. -/
structure CatalogEntry where
  info : DeviceInfo
  dtype : DeviceType
  childAlias : Option String := none
  childId : Option String := none
deriving DecidableEq, Repr

/-! ## Cryptographic primitives

`src/api/signing.rs` delegates to the `md5`, `sha1`, `hmac`, `base64` and
`hex` crates.  Those external primitives are implemented here concretely
(standard MD5 / SHA-1 / HMAC / standard-alphabet padded base64 / lowercase
hex), on byte lists with 32-bit words as `Nat` reduced `% 2^32`.  Test-vector
theorems below check the implementations against published digests. -/

/-- Addition modulo `2^32`. -/
def add32 (a b : Nat) : Nat := (a + b) % 4294967296

/-- Bitwise complement on a 32-bit word. -/
def not32 (x : Nat) : Nat := 4294967295 - x % 4294967296

/-- Left rotation of a 32-bit word by `s` bits. -/
def rotl32 (x s : Nat) : Nat :=
  Nat.lor ((x <<< s) % 4294967296) ((x % 4294967296) >>> (32 - s))

/-- UTF-8 encoding of one character. -/
def charUtf8 (c : Char) : List Nat :=
  let n := c.toNat
  if n < 128 then [n]
  else if n < 2048 then [192 + n / 64, 128 + n % 64]
  else if n < 65536 then [224 + n / 4096, 128 + (n / 64) % 64, 128 + n % 64]
  else [240 + n / 262144, 128 + (n / 4096) % 64, 128 + (n / 64) % 64,
        128 + n % 64]

/-- The UTF-8 bytes of a string (Rust `str::as_bytes`). -/
def utf8Bytes (s : String) : List Nat :=
  s.data.flatMap charUtf8

/-- Little-endian 4-byte encoding of a 32-bit word. -/
def leBytes4 (n : Nat) : List Nat :=
  [n % 256, n / 256 % 256, n / 65536 % 256, n / 16777216 % 256]

/-- Little-endian 8-byte encoding of a 64-bit length. -/
def leBytes8 (n : Nat) : List Nat :=
  leBytes4 (n % 4294967296) ++ leBytes4 (n / 4294967296)

/-- Big-endian 4-byte encoding of a 32-bit word. -/
def beBytes4 (n : Nat) : List Nat :=
  [n / 16777216 % 256, n / 65536 % 256, n / 256 % 256, n % 256]

/-- Big-endian 8-byte encoding of a 64-bit length. -/
def beBytes8 (n : Nat) : List Nat :=
  beBytes4 (n / 4294967296) ++ beBytes4 (n % 4294967296)

/-- Group bytes into little-endian 32-bit words. -/
def leWords : List Nat → List Nat
  | b0 :: b1 :: b2 :: b3 :: rest =>
      (b0 + 256 * b1 + 65536 * b2 + 16777216 * b3) :: leWords rest
  | _ => []

/-- Group bytes into big-endian 32-bit words. -/
def beWords : List Nat → List Nat
  | b0 :: b1 :: b2 :: b3 :: rest =>
      (16777216 * b0 + 65536 * b1 + 256 * b2 + b3) :: beWords rest
  | _ => []

/-- Split a byte list into 64-byte blocks (structural recursion on a fuel
bound: each step consumes at least one byte, so `l.length` steps always
suffice). -/
def toBlocksFuel : Nat → List Nat → List (List Nat)
  | 0, _ => []
  | _, [] => []
  | fuel + 1, l => l.take 64 :: toBlocksFuel fuel (l.drop 64)

/-- Split a byte list into 64-byte blocks. -/
def toBlocks (l : List Nat) : List (List Nat) :=
  toBlocksFuel l.length l

/-- Merkle–Damgård padding: `0x80`, zeros to 56 mod 64, then the 8-byte bit
length produced by `lenBytes`. -/
def mdPad (lenBytes : Nat → List Nat) (msg : List Nat) : List Nat :=
  let len := msg.length
  let padZeros := (119 - len % 64) % 64
  msg ++ 128 :: List.replicate padZeros 0 ++ lenBytes ((len * 8) % 18446744073709551616)

/-- The 64 MD5 sine-derived round constants. -/
def md5K : List Nat :=
  [0xd76aa478, 0xe8c7b756, 0x242070db, 0xc1bdceee,
   0xf57c0faf, 0x4787c62a, 0xa8304613, 0xfd469501,
   0x698098d8, 0x8b44f7af, 0xffff5bb1, 0x895cd7be,
   0x6b901122, 0xfd987193, 0xa679438e, 0x49b40821,
   0xf61e2562, 0xc040b340, 0x265e5a51, 0xe9b6c7aa,
   0xd62f105d, 0x02441453, 0xd8a1e681, 0xe7d3fbc8,
   0x21e1cde6, 0xc33707d6, 0xf4d50d87, 0x455a14ed,
   0xa9e3e905, 0xfcefa3f8, 0x676f02d9, 0x8d2a4c8a,
   0xfffa3942, 0x8771f681, 0x6d9d6122, 0xfde5380c,
   0xa4beea44, 0x4bdecfa9, 0xf6bb4b60, 0xbebfbc70,
   0x289b7ec6, 0xeaa127fa, 0xd4ef3085, 0x04881d05,
   0xd9d4d039, 0xe6db99e5, 0x1fa27cf8, 0xc4ac5665,
   0xf4292244, 0x432aff97, 0xab9423a7, 0xfc93a039,
   0x655b59c3, 0x8f0ccc92, 0xffeff47d, 0x85845dd1,
   0x6fa87e4f, 0xfe2ce6e0, 0xa3014314, 0x4e0811a1,
   0xf7537e82, 0xbd3af235, 0x2ad7d2bb, 0xeb86d391]

/-- The 64 MD5 per-round shift amounts. -/
def md5S : List Nat :=
  [7, 12, 17, 22, 7, 12, 17, 22, 7, 12, 17, 22, 7, 12, 17, 22,
   5,  9, 14, 20, 5,  9, 14, 20, 5,  9, 14, 20, 5,  9, 14, 20,
   4, 11, 16, 23, 4, 11, 16, 23, 4, 11, 16, 23, 4, 11, 16, 23,
   6, 10, 15, 21, 6, 10, 15, 21, 6, 10, 15, 21, 6, 10, 15, 21]

/-- One MD5 round applied to state `(a, b, c, d)`. -/
def md5Round (m : List Nat) (st : Nat × Nat × Nat × Nat) (i : Nat) :
    Nat × Nat × Nat × Nat :=
  let (a, b, c, d) := st
  let (f, g) :=
    if i < 16 then (Nat.lor (Nat.land b c) (Nat.land (not32 b) d), i)
    else if i < 32 then
      (Nat.lor (Nat.land d b) (Nat.land (not32 d) c), (5 * i + 1) % 16)
    else if i < 48 then
      (Nat.xor b (Nat.xor c d), (3 * i + 5) % 16)
    else (Nat.xor c (Nat.lor b (not32 d)), (7 * i) % 16)
  let f := add32 (add32 (add32 f a) (md5K.getD i 0)) (m.getD g 0)
  (d, add32 b (rotl32 f (md5S.getD i 0)), b, c)

/-- Process one 64-byte MD5 block. -/
def md5Block (st : Nat × Nat × Nat × Nat) (block : List Nat) :
    Nat × Nat × Nat × Nat :=
  let m := leWords block
  let (a, b, c, d) := (List.range 64).foldl (md5Round m) st
  (add32 st.1 a, add32 st.2.1 b, add32 st.2.2.1 c, add32 st.2.2.2 d)

/-- MD5 digest (16 bytes) of a byte list. -/
def md5Bytes (msg : List Nat) : List Nat :=
  let blocks := toBlocks (mdPad leBytes8 msg)
  let (a, b, c, d) :=
    blocks.foldl md5Block (0x67452301, 0xefcdab89, 0x98badcfe, 0x10325476)
  leBytes4 a ++ leBytes4 b ++ leBytes4 c ++ leBytes4 d

/-- SHA-1 message-schedule extension of the 16 block words to 80 words. -/
def sha1Extend (w : List Nat) : List Nat :=
  (List.range 64).foldl
    (fun w _ =>
      let n := w.length
      w ++ [rotl32 (Nat.xor (w.getD (n - 3) 0)
        (Nat.xor (w.getD (n - 8) 0)
          (Nat.xor (w.getD (n - 14) 0) (w.getD (n - 16) 0)))) 1])
    w

/-- One SHA-1 round applied to state `(a, b, c, d, e)`. -/
def sha1Round (w : List Nat) (st : Nat × Nat × Nat × Nat × Nat) (i : Nat) :
    Nat × Nat × Nat × Nat × Nat :=
  let (a, b, c, d, e) := st
  let (f, k) :=
    if i < 20 then
      (Nat.lor (Nat.land b c) (Nat.land (not32 b) d), 0x5a827999)
    else if i < 40 then (Nat.xor b (Nat.xor c d), 0x6ed9eba1)
    else if i < 60 then
      (Nat.lor (Nat.lor (Nat.land b c) (Nat.land b d)) (Nat.land c d),
       0x8f1bbcdc)
    else (Nat.xor b (Nat.xor c d), 0xca62c1d6)
  let temp := add32 (add32 (add32 (add32 (rotl32 a 5) f) e) k) (w.getD i 0)
  (temp, a, rotl32 b 30, c, d)

/-- Process one 64-byte SHA-1 block. -/
def sha1Block (st : Nat × Nat × Nat × Nat × Nat) (block : List Nat) :
    Nat × Nat × Nat × Nat × Nat :=
  let w := sha1Extend (beWords block)
  let (a, b, c, d, e) := (List.range 80).foldl (sha1Round w) st
  (add32 st.1 a, add32 st.2.1 b, add32 st.2.2.1 c, add32 st.2.2.2.1 d,
   add32 st.2.2.2.2 e)

/-- SHA-1 digest (20 bytes) of a byte list. -/
def sha1Bytes (msg : List Nat) : List Nat :=
  let blocks := toBlocks (mdPad beBytes8 msg)
  let (a, b, c, d, e) :=
    blocks.foldl sha1Block
      (0x67452301, 0xefcdab89, 0x98badcfe, 0x10325476, 0xc3d2e1f0)
  beBytes4 a ++ beBytes4 b ++ beBytes4 c ++ beBytes4 d ++ beBytes4 e

/-- HMAC-SHA1 of `msg` under `key` (RFC 2104). -/
def hmacSha1 (key msg : List Nat) : List Nat :=
  let key := if 64 < key.length then sha1Bytes key else key
  let key := key ++ List.replicate (64 - key.length) 0
  let ipad := key.map (fun b => Nat.xor b 54)
  let opad := key.map (fun b => Nat.xor b 92)
  sha1Bytes (opad ++ sha1Bytes (ipad ++ msg))

/-- Lowercase hex digit. -/
def hexChar (n : Nat) : Char :=
  "0123456789abcdef".data.getD n '0'

/-- Lowercase hex encoding of a byte list (`hex::encode`). -/
def hexEncode (bytes : List Nat) : String :=
  ⟨bytes.flatMap (fun b => [hexChar (b / 16 % 16), hexChar (b % 16)])⟩

/-- The standard base64 alphabet. -/
def b64Char (n : Nat) : Char :=
  "ABCDEFGHIJKLMNOPQRSTUVWXYZabcdefghijklmnopqrstuvwxyz0123456789+/".data.getD n 'A'

/-- Standard padded base64 encoding, as characters. -/
def base64Chars : List Nat → List Char
  | b0 :: b1 :: b2 :: rest =>
      b64Char (b0 / 4) :: b64Char (b0 % 4 * 16 + b1 / 16) ::
        b64Char (b1 % 16 * 4 + b2 / 64) :: b64Char (b2 % 64) ::
          base64Chars rest
  | [b0, b1] =>
      [b64Char (b0 / 4), b64Char (b0 % 4 * 16 + b1 / 16),
       b64Char (b1 % 16 * 4), '=']
  | [b0] => [b64Char (b0 / 4), b64Char (b0 % 4 * 16), '=', '=']
  | [] => []

/-- Standard padded base64 encoding (`base64::engine::general_purpose::STANDARD`). -/
def base64Encode (bytes : List Nat) : String :=
  ⟨base64Chars bytes⟩

/-! ## SigningEngine — `src/api/signing.rs` -/

/-- The hardcoded signing timestamp sentinel. -/
def SIGNING_TIMESTAMP : String := "9999999999"

/-- `compute_content_md5`: Base64-encoded MD5 hash of the request body. -/
def compute_content_md5 (body : String) : String :=
  base64Encode (md5Bytes (utf8Bytes body))

/-- `compute_signature`: `(content_md5, x_authorization_header)` for one
request.  The per-call random UUID nonce is the explicit `nonce` argument. -/
def compute_signature (bodyJson urlPath : String) (cloudType : CloudType)
    (nonce : String) : String × String :=
  let contentMd5 := compute_content_md5 bodyJson
  let sigString :=
    contentMd5 ++ "\n" ++ SIGNING_TIMESTAMP ++ "\n" ++ nonce ++ "\n" ++ urlPath
  let signature :=
    hexEncode (hmacSha1 (utf8Bytes cloudType.secretKey) (utf8Bytes sigString))
  let authorization :=
    "Timestamp=" ++ SIGNING_TIMESTAMP ++ ", Nonce=" ++ nonce ++
      ", AccessKey=" ++ cloudType.accessKey ++ ", Signature=" ++ signature
  (contentMd5, authorization)

/-- `get_signing_headers` returns the same pair as a record. -/
structure SigningHeaders where
  contentMd5 : String
  xAuthorization : String
deriving DecidableEq, Repr

def get_signing_headers (bodyJson urlPath : String) (cloudType : CloudType)
    (nonce : String) : SigningHeaders :=
  let (contentMd5, xAuthorization) :=
    compute_signature bodyJson urlPath cloudType nonce
  ⟨contentMd5, xAuthorization⟩

/-! ## CloudApiClient response handling — `src/api/client.rs`

Each handler embeds one operation's response-processing control flow.  The
HTTP transport is explicit: `callResult` is the outcome of
`request_post_v2` / `request_post_v1` (an `ApiResponse` on 2xx with a
decodable body, an `AppError` for request errors and non-2xx statuses). -/

/-- `LoginResult` (`src/api/client.rs`). -/
structure LoginResult where
  token : String
  refreshToken : Option String
  regionalUrl : String
deriving DecidableEq, Repr

/-- `TPLinkApi::get_regional_url` (`src/api/client.rs` lines 200-216):
`host` is the currently configured host; `callResult` is the outcome of the
signed account-status POST.  Note the source propagates a failed call with
the question-mark operator before any fallback is considered. -/
def get_regional_url (host : String)
    (callResult : Except AppError ApiResponse) : Except AppError String :=
  match callResult with
  | .error e => .error e
  | .ok response =>
    if response.successful then
      match response.result with
      | some result =>
        match (result.get "appServerUrl").bind Json.asStr with
        | some url => .ok url
        | none => .ok host
      | none => .ok host
    else .ok host

/-- The inner business code of a login result object: `errorCode` read as an
integer, else parsed from a string, defaulting to `0`
(`src/api/client.rs` lines 255-262). -/
def innerErrorCode (result : Json) : Int :=
  ((result.get "errorCode").bind
    (fun v => v.asInt.orElse (fun _ => v.asStr.bind String.toInt?))).getD 0

/-- `TPLinkApi::login` response handling (`src/api/client.rs` lines
249-328), after the input-validation and regional-discovery steps:
`regionalUrl` is the discovered regional URL the login was issued against. -/
def login_handle (username regionalUrl : String) (r : ApiResponse) :
    Except AppError LoginResult :=
  if r.errorCode == 0 then
    let result := r.result.getD .null
    let innerError := innerErrorCode result
    if innerError != 0 then
      let innerMsg := ((result.get "errorMsg").bind Json.asStr).getD "Login failed"
      if innerError == ERR_MFA_REQUIRED then
        .error (.mfaRequired ((result.get "mfaType").bind Json.asStr)
          (some username))
      else if innerError == ERR_WRONG_CREDENTIALS ||
          innerError == ERR_ACCOUNT_LOCKED then
        .error (.auth innerMsg (some innerError))
      else
        .error (.api innerMsg (some innerError))
    else
      .ok { token := ((r.result.getD .null).index "token").asStr.getD ""
            refreshToken := ((r.result.getD .null).index "refreshToken").asStr
            regionalUrl := regionalUrl }
  else if r.errorCode == ERR_MFA_REQUIRED then
    .error (.mfaRequired
      ((r.result.bind (fun res => res.get "mfaType")).bind Json.asStr)
      (some username))
  else if r.errorCode == ERR_WRONG_CREDENTIALS ||
      r.errorCode == ERR_ACCOUNT_LOCKED then
    .error (.auth (r.msg.getD "Authentication failed") (some r.errorCode))
  else
    .error (.api
      (r.msg.getD ("Login failed with error code " ++ toString r.errorCode))
      (some r.errorCode))

/-- `TPLinkApi::verify_mfa` response handling (`src/api/client.rs` lines
350-364): `host` is the client's configured host. -/
def verify_mfa_handle (host : String) (r : ApiResponse) :
    Except AppError LoginResult :=
  if r.successful then
    .ok { token := ((r.result.getD .null).index "token").asStr.getD ""
          refreshToken := ((r.result.getD .null).index "refreshToken").asStr
          regionalUrl := host }
  else
    .error (.auth (r.msg.getD "MFA verification failed") (some r.errorCode))

/-- `TPLinkApi::refresh_token` response handling (`src/api/client.rs` lines
379-404). -/
def refresh_token_handle (host : String) (r : ApiResponse) :
    Except AppError LoginResult :=
  if r.successful then
    .ok { token := ((r.result.getD .null).index "token").asStr.getD ""
          refreshToken := ((r.result.getD .null).index "refreshToken").asStr
          regionalUrl := host }
  else if r.errorCode == ERR_REFRESH_TOKEN_EXPIRED then
    .error (.tokenExpired
      "Refresh token has expired. Run 'tplc login' to re-authenticate."
      (some r.errorCode))
  else
    .error (.api
      (r.msg.getD ("Token refresh failed with error code " ++
        toString r.errorCode))
      (some r.errorCode))

/-- `TPLinkApi::get_device_info_list` response handling
(`src/api/client.rs` lines 414-432). -/
def get_device_info_list_handle (r : ApiResponse) :
    Except AppError (List Json) :=
  if r.successful then
    match r.result with
    | some result =>
      match result.get "deviceList" with
      | some devices =>
        match devices.asArr with
        | some arr => .ok arr
        | none => .ok []
      | none => .ok []
    | none => .ok []
  else if r.errorCode == ERR_TOKEN_EXPIRED then
    .error (.tokenExpired "Auth token expired" (some r.errorCode))
  else
    .ok []

/-! ## Auth state — `src/auth/token.rs`, `src/auth/credentials.rs` -/

/-- `TokenSet` (`src/auth/token.rs`). -/
structure TokenSet where
  token : String
  refreshToken : Option String := none
  username : String := ""
  regionalUrl : String := ""
  termId : String := ""
  tapoToken : Option String := none
  tapoRefreshToken : Option String := none
  tapoRegionalUrl : Option String := none
deriving DecidableEq, Repr

/-- `AuthContext` (`src/auth/credentials.rs`). -/
structure AuthContext where
  token : String
  refreshToken : Option String := none
  regionalUrl : String := ""
  termId : String := ""
  username : String := ""
  tapoToken : Option String := none
  tapoRefreshToken : Option String := none
  tapoRegionalUrl : Option String := none
deriving DecidableEq, Repr

/-- `AuthContext::has_tapo`. -/
def AuthContext.hasTapo (a : AuthContext) : Bool :=
  match a.tapoToken with
  | some t => !(t == "")
  | none => false

/-- `get_auth_context` (`src/auth/credentials.rs` lines 40-57): `stored` is
the outcome of `keychain::get_tokens()`. -/
def get_auth_context (stored : Except AppError (Option TokenSet)) :
    Except AppError AuthContext :=
  match stored with
  | .error e => .error e
  | .ok none => .error .notAuthenticated
  | .ok (some tokens) =>
    if tokens.token == "" then .error .notAuthenticated
    else
      .ok { token := tokens.token
            refreshToken := tokens.refreshToken
            regionalUrl := tokens.regionalUrl
            termId := tokens.termId
            username := tokens.username
            tapoToken := tokens.tapoToken
            tapoRefreshToken := tokens.tapoRefreshToken
            tapoRegionalUrl := tokens.tapoRegionalUrl }

/-! ## Device passthrough — `src/api/device_client.rs`, `src/models/device.rs` -/

/-- The pure response handling of `DeviceClient::passthrough`
(`src/api/device_client.rs` lines 114-162), given the decoded 2xx envelope.
`parseJson` is `serde_json::from_str` for the double-encoded `responseData`
payload (`none` models a parse failure, which the source converts to its
JSON error kind via the question-mark operator). -/
def client_passthrough_handle (parseJson : String → Option Json)
    (r : ApiResponse) : Except AppError (Option Json) :=
  if r.errorCode == ERR_TOKEN_EXPIRED then
    .error (.tokenExpired "Auth token expired" (some r.errorCode))
  else if !r.successful then
    .error (.api
      (r.msg.getD ("Device error code " ++ toString r.errorCode))
      (some r.errorCode))
  else
    match r.result with
    | some result =>
      match (result.get "responseData").bind Json.asStr with
      | some s =>
        match parseJson s with
        | some parsed => .ok (some parsed)
        | none => .error (.jsonErr s)
      | none => .ok none
    | none => .ok none

/-- The passthrough request envelope built by `Device::passthrough`
(`src/models/device.rs` lines 46-57): the `{service: {subrequest: payload}}`
shape, with a `context.child_ids` sibling key injected for sub-units. -/
def buildEnvelope (childId : Option String)
    (requestType subRequestType : String) (request : Json) : Json :=
  match childId with
  | some cid =>
    Json.obj [(requestType, Json.obj [(subRequestType, request)]),
              ("context", Json.obj [("child_ids", Json.arr [Json.str cid])])]
  | none => Json.obj [(requestType, Json.obj [(subRequestType, request)])]

/-- The response navigation of `Device::passthrough`
(`src/models/device.rs` lines 64-85): descend into
`<service>.<subrequest>`, and for a sub-unit select the matching entry of a
returned `children` array when one exists. -/
def navigateResponse (childId : Option String)
    (requestType subRequestType : String) : Option Json → Option Json
  | some responseData =>
    match responseData.get requestType with
    | some requestResponse =>
      match requestResponse.get subRequestType with
      | some subResponse =>
        match childId with
        | some cid =>
          match subResponse.get "children" with
          | some children =>
            match children.asArr with
            | some arr =>
              match arr.find?
                  (fun child => (child.get "id").bind Json.asStr == some cid) with
              | some child => some child
              | none => some subResponse
            | none => some subResponse
          | none => some subResponse
        | none => some subResponse
      | none => none
    | none => none
  | none => none

/-- `Device::passthrough` (`src/models/device.rs` lines 40-86): build the
envelope, make exactly one client call (`call` is
`DeviceClient::passthrough` bound to this device), propagate its error
unchanged, and navigate a successful response. -/
def device_passthrough (childId : Option String)
    (requestType subRequestType : String) (request : Json)
    (call : Json → Except AppError (Option Json)) :
    Except AppError (Option Json) :=
  match call (buildEnvelope childId requestType subRequestType request) with
  | .error e => .error e
  | .ok response =>
    .ok (navigateResponse childId requestType subRequestType response)

/-- `Device::passthrough` against a script of client-call outcomes: the
next scripted outcome answers the next client call, and the second
component counts the client calls consumed.  This makes the call count of
the embedded control flow observable (the source makes exactly one
`client.passthrough` call, with no catch around it). -/
def device_passthrough_script (childId : Option String)
    (requestType subRequestType : String) (request : Json)
    (script : List (Except AppError (Option Json))) :
    Except AppError (Option Json) × Nat :=
  let _envelope := buildEnvelope childId requestType subRequestType request
  match script with
  | r :: _ =>
    (match r with
     | .error e => .error e
     | .ok response =>
       .ok (navigateResponse childId requestType subRequestType response), 1)
  | [] => (.error (.api "no scripted response" none), 0)

/-- `Device::get_power_usage_realtime` (`src/models/device.rs` lines
169-178): the metering precondition is checked before any envelope is
built or any call made. -/
def get_power_usage_realtime (dtype : DeviceType) (childId : Option String)
    (call : Json → Except AppError (Option Json)) :
    Except AppError (Option Json) :=
  if !dtype.hasEmeter then
    .error (.unsupportedOperation
      (dtype.displayName ++ " does not support energy monitoring"))
  else
    device_passthrough childId "emeter" "get_realtime" .null call

/-- `Device::get_power_usage_day` (`src/models/device.rs` lines 180-197). -/
def get_power_usage_day (dtype : DeviceType) (childId : Option String)
    (year month : Int) (call : Json → Except AppError (Option Json)) :
    Except AppError (Option Json) :=
  if !dtype.hasEmeter then
    .error (.unsupportedOperation
      (dtype.displayName ++ " does not support energy monitoring"))
  else
    device_passthrough childId "emeter" "get_daystat"
      (.obj [("year", .num year), ("month", .num month)]) call

/-- `Device::get_power_usage_month` (`src/models/device.rs` lines
199-211). -/
def get_power_usage_month (dtype : DeviceType) (childId : Option String)
    (year : Int) (call : Json → Except AppError (Option Json)) :
    Except AppError (Option Json) :=
  if !dtype.hasEmeter then
    .error (.unsupportedOperation
      (dtype.displayName ++ " does not support energy monitoring"))
  else
    device_passthrough childId "emeter" "get_monthstat"
      (.obj [("year", .num year)]) call

/-! ## Device-list fetch with one refresh-and-retry — `src/resolve.rs` -/

/-- The device-list fetch of `collect_devices_for_resolution` /
`fetch_devices_for_cloud` (`src/resolve.rs` lines 82-100 and 276-294):
`fetchList token` is the whole network call
`api.get_device_info_list(token)`; `refreshResult` is the outcome of
`refresh_auth` / `refresh_tapo_auth` together with the refreshed token read
back from the auth context afterwards.  Returns the fetch result and the
pair (fetch calls made, refresh attempts made). -/
def fetchListWithRetry (fetchList : String → Except AppError (List Json))
    (refreshResult : Except AppError String) (token : String) :
    Except AppError (List Json) × Nat × Nat :=
  match fetchList token with
  | .ok deviceList => (.ok deviceList, 1, 0)
  | .error (.tokenExpired _ _) =>
    match refreshResult with
    | .error e => (.error e, 1, 1)
    | .ok refreshedToken => (fetchList refreshedToken, 2, 1)
  | .error e => (.error e, 1, 0)

/-! ## Catalog building — `src/resolve.rs` -/

/-- The catalog entries one parsed device contributes
(`src/resolve.rs` lines 303-338): the parent entry, plus — for a composite
kind — one entry per enumerated sub-unit.  `children` is the outcome of
`parent_device.get_children()` (`none` models the swallowed `Err` case:
zero sub-unit entries). -/
def entriesOf (cloudType : CloudType)
    (children : DeviceInfo → Option (List ChildInfo)) (info : DeviceInfo) :
    List CatalogEntry :=
  if (DeviceType.fromModel info.model).hasChildren then
    { info := { info with cloudType := some cloudType }
      dtype := DeviceType.fromModel info.model } ::
      (match children { info with cloudType := some cloudType } with
       | some cs =>
         cs.map (fun c =>
           { info := { info with cloudType := some cloudType }
             dtype := (DeviceType.fromModel info.model).childType
             childAlias := if c.alias_ == "" then none else some c.alias_
             childId := some c.id })
       | none => [])
  else
    [{ info := { info with cloudType := some cloudType }
       dtype := DeviceType.fromModel info.model }]

/-- The entries `collect_devices_for_resolution` appends for one cloud's
parsed device list, given the already-seen identifier set
(`src/resolve.rs` lines 296-340): a device whose identifier was already
seen is skipped entirely. -/
def collectNew (cloudType : CloudType)
    (children : DeviceInfo → Option (List ChildInfo)) :
    List DeviceInfo → List String → List CatalogEntry
  | [], _ => []
  | info :: rest, seen =>
    if seen.contains info.id then collectNew cloudType children rest seen
    else
      entriesOf cloudType children info ++
        collectNew cloudType children rest (info.id :: seen)

/-- The seen-identifier set after processing one cloud's device list. -/
def collectSeen : List DeviceInfo → List String → List String
  | [], seen => seen
  | info :: rest, seen =>
    if seen.contains info.id then collectSeen rest seen
    else collectSeen rest (info.id :: seen)

/-- `collect_devices_for_resolution`, catalog-and-seen-set form: processes
one cloud's parsed device list against the running accumulator. -/
def collect_devices_for_resolution (cloudType : CloudType)
    (children : DeviceInfo → Option (List ChildInfo))
    (infos : List DeviceInfo) (acc : List CatalogEntry × List String) :
    List CatalogEntry × List String :=
  (acc.1 ++ collectNew cloudType children infos acc.2,
   collectSeen infos acc.2)

/-- The full cross-ecosystem flattened catalog `resolve_device` builds
(`src/resolve.rs` lines 148-177): Kasa first, then — when a Tapo session
exists — Tapo, whose fetch failure (`tapoFetch = none`) is swallowed. -/
def collect_all_devices (kasa : List DeviceInfo) (hasTapo : Bool)
    (tapoFetch : Option (List DeviceInfo))
    (childrenK childrenT : DeviceInfo → Option (List ChildInfo)) :
    List CatalogEntry :=
  let kasaAcc := collect_devices_for_resolution .kasa childrenK kasa ([], [])
  if hasTapo then
    match tapoFetch with
    | some tapo =>
      (collect_devices_for_resolution .tapo childrenT tapo kasaAcc).1
    | none => kasaAcc.1
  else kasaAcc.1

/-- The flattened tuples built by `fetch_devices_for_cloud`
(`src/resolve.rs` lines 104-139), which has no seen-set of its own.  Its
per-device branch duplicates the one of `collect_devices_for_resolution`,
so it is expressed through `entriesOf` with the sub-unit id projected
away. -/
def fetchCloud (cloudType : CloudType)
    (children : DeviceInfo → Option (List ChildInfo)) :
    List DeviceInfo → List (DeviceInfo × DeviceType × Option String)
  | [] => []
  | info :: rest =>
    (entriesOf cloudType children info).map
        (fun e => (e.info, e.dtype, e.childAlias)) ++
      fetchCloud cloudType children rest

/-- `fetch_all_devices` (`src/resolve.rs` lines 14-50): Kasa devices, then
Tapo devices filtered against the Kasa identifiers (Kasa wins ties); a Tapo
fetch failure (`tapoFetch = none`) is swallowed. -/
def fetch_all_devices (kasa : List DeviceInfo) (hasTapo : Bool)
    (tapoFetch : Option (List DeviceInfo))
    (childrenK childrenT : DeviceInfo → Option (List ChildInfo)) :
    List (DeviceInfo × DeviceType × Option String) :=
  let kasaDevices := fetchCloud .kasa childrenK kasa
  let kasaIds := kasaDevices.map (fun d => d.1.id)
  kasaDevices ++
    (if hasTapo then
       match tapoFetch with
       | some tapo =>
         (fetchCloud .tapo childrenT tapo).filter
           (fun d => !(kasaIds.contains d.1.id))
       | none => []
     else [])

/-! ## Name/ID resolution — `src/resolve.rs` lines 179-242 -/

/-- The effective alias of a catalog entry: the sub-unit alias when
present, else the parent's alias-or-name. -/
def effAlias (e : CatalogEntry) : String :=
  e.childAlias.getD e.info.aliasOrName

/-- The rule-4 match set: entries whose lowercased effective alias contains
the lowercased query. -/
def partialMatches (all : List CatalogEntry) (nameOrId : String) :
    List CatalogEntry :=
  all.filter (fun e => strContains (lowerStr (effAlias e)) (lowerStr nameOrId))

/-- The resolution policy of `resolve_device` (`src/resolve.rs` lines
179-241) over the flattened catalog.  A successful resolution returns the
selected catalog entry (the source then wraps it via `build_device`). -/
def resolve_device (all : List CatalogEntry) (nameOrId : String) :
    Except AppError CatalogEntry :=
  match all.find? (fun e => effAlias e == nameOrId) with
  | some e => .ok e
  | none =>
    match all.find? (fun e => e.info.id == nameOrId) with
    | some e => .ok e
    | none =>
      match all.find?
          (fun e => lowerStr (effAlias e) == lowerStr nameOrId) with
      | some e => .ok e
      | none =>
        match all.filter
            (fun e => strContains (lowerStr (effAlias e)) (lowerStr nameOrId)) with
        | [e] => .ok e
        | [] => .error (.deviceNotFound nameOrId)
        | es =>
          .error (.deviceNotFound
            ("Multiple devices match '" ++ nameOrId ++ "': " ++
              String.intercalate ", " (es.map effAlias)))

/-- The resolution policy as the spec words it: compute the four rules'
match sets and stop at the first rule with a non-empty match set — exact
alias, exact identifier, case-insensitive exact alias, then
case-insensitive substring (the last resolving only a singleton set). -/
def resolveSpec (all : List CatalogEntry) (nameOrId : String) :
    Except AppError CatalogEntry :=
  match all.filter (fun e => effAlias e == nameOrId) with
  | e :: _ => .ok e
  | [] =>
    match all.filter (fun e => e.info.id == nameOrId) with
    | e :: _ => .ok e
    | [] =>
      match all.filter
          (fun e => lowerStr (effAlias e) == lowerStr nameOrId) with
      | e :: _ => .ok e
      | [] =>
        match partialMatches all nameOrId with
        | [e] => .ok e
        | [] => .error (.deviceNotFound nameOrId)
        | es =>
          .error (.deviceNotFound
            ("Multiple devices match '" ++ nameOrId ++ "': " ++
              String.intercalate ", " (es.map effAlias)))

/-! ## Helper lemmas -/

/-- The first element satisfying `p` is the head of the `p`-filtered list. -/
theorem find?_eq_head_filter (l : List α) (p : α → Bool) :
    l.find? p = (l.filter p).head? := by
  induction l with
  | nil => rfl
  | cons a t ih =>
    by_cases h : p a = true
    · rw [List.find?_cons_of_pos _ h, List.filter_cons_of_pos h]
      rfl
    · rw [List.find?_cons_of_neg _ h,
        List.filter_cons_of_neg (by simpa using h)]
      exact ih

/-- The empty list is a prefix of every list. -/
theorem listStartsWith_nil (q : List Char) : listStartsWith q [] = true := by
  cases q <;> rfl

/-- Two prefixes of the same character list are comparable. -/
theorem listStartsWith_total (a p q : List Char)
    (hp : listStartsWith a p = true) (hq : listStartsWith a q = true) :
    listStartsWith p q = true ∨ listStartsWith q p = true := by
  induction a generalizing p q with
  | nil =>
    cases p with
    | nil => exact Or.inr (listStartsWith_nil q)
    | cons _ _ => simp [listStartsWith] at hp
  | cons c cs ih =>
    cases p with
    | nil => exact Or.inr (listStartsWith_nil q)
    | cons p0 ps =>
      cases q with
      | nil => exact Or.inl (listStartsWith_nil (p0 :: ps))
      | cons q0 qs =>
        simp only [listStartsWith, Bool.and_eq_true, beq_iff_eq] at hp hq
        rcases hp with ⟨hp0, hps⟩
        rcases hq with ⟨hq0, hqs⟩
        subst hp0
        subst hq0
        rcases ih ps qs hps hqs with h | h
        · exact Or.inl (by simp [listStartsWith, h])
        · exact Or.inr (by simp [listStartsWith, h])

/-- No key of `MODEL_MAP` is a prefix of a different key: a model string
matches at most one table prefix. -/
theorem MODEL_MAP_keys_incomparable :
    ∀ a ∈ MODEL_MAP, ∀ b ∈ MODEL_MAP,
      listStartsWith a.1.data b.1.data = true → a = b := by
  decide

/-! ## Cryptographic test vectors

Pinning the concrete MD5 / SHA-1 / HMAC-SHA1 / base64 / hex implementations
to published digests (RFC 1321 appendix, FIPS 180-1 examples, and the
classic HMAC-SHA1 example). -/

set_option maxRecDepth 8192 in
theorem md5_vector_empty :
    hexEncode (md5Bytes (utf8Bytes "")) = "d41d8cd98f00b204e9800998ecf8427e" := by
  rfl

set_option maxRecDepth 8192 in
theorem md5_vector_abc :
    hexEncode (md5Bytes (utf8Bytes "abc")) = "900150983cd24fb0d6963f7d28e17f72" := by
  rfl

set_option maxRecDepth 8192 in
theorem content_md5_vector_empty :
    compute_content_md5 "" = "1B2M2Y8AsgTpgAmY7PhCfg==" := by
  rfl

set_option maxRecDepth 8192 in
theorem sha1_vector_abc :
    hexEncode (sha1Bytes (utf8Bytes "abc")) =
      "a9993e364706816aba3e25717850c26c9cd0d89d" := by
  rfl

set_option maxRecDepth 8192 in
theorem hmac_sha1_vector :
    hexEncode (hmacSha1 (utf8Bytes "key")
        (utf8Bytes "The quick brown fox jumps over the lazy dog")) =
      "de7c9b85b8b78aa6bc8a7a36f70a90701c9db4d9" := by
  rfl

set_option maxRecDepth 8192 in
/-- A fully computed signing example for the Kasa ecosystem. -/
theorem compute_signature_example :
    compute_signature "{}" "/" .kasa "NONCE" =
      ("mZFLkyvTelC5g8XnyQrpOw==",
       "Timestamp=9999999999, Nonce=NONCE, AccessKey=e37525375f8845999bcc56d5e6faa76d, Signature=91ba3657fb1d30be5096a4ab23b052ab4fd833b0") := by
  rfl

/-! ## C7 — signing correctness -/

/-- C7: for every body and URL path (and per-call nonce), the content hash
is the base64 encoding of the MD5 digest of the body's UTF-8 bytes (equal
bodies therefore always yield equal hashes), and the authorization header
is `Timestamp=<sentinel>, Nonce=<nonce>, AccessKey=<ecosystem access key>,
Signature=<hex HMAC-SHA1>`, where the HMAC-SHA1 is keyed by the ecosystem's
fixed secret key and taken over the newline-join of content hash, the fixed
sentinel timestamp, the nonce and the URL path, in this exact order. -/
theorem compute_signature_correct (body urlPath : String) (ct : CloudType)
    (nonce : String) :
    (compute_signature body urlPath ct nonce).1 =
        base64Encode (md5Bytes (utf8Bytes body)) ∧
      (compute_signature body urlPath ct nonce).2 =
        "Timestamp=" ++ SIGNING_TIMESTAMP ++ ", Nonce=" ++ nonce ++
          ", AccessKey=" ++ ct.accessKey ++ ", Signature=" ++
          hexEncode (hmacSha1 (utf8Bytes ct.secretKey)
            (utf8Bytes (String.intercalate "\n"
              [compute_content_md5 body, SIGNING_TIMESTAMP, nonce, urlPath]))) := by
  constructor
  · rfl
  · show _ = _
    have hjoin :
        String.intercalate "\n"
            [compute_content_md5 body, SIGNING_TIMESTAMP, nonce, urlPath] =
          compute_content_md5 body ++ "\n" ++ SIGNING_TIMESTAMP ++ "\n" ++
            nonce ++ "\n" ++ urlPath := rfl
    rw [hjoin]
    rfl

/-! ## C8 — longest-prefix model lookup -/

/-- C8: `DeviceType::from_model` returns the kind bound to the longest
`MODEL_MAP` prefix the model string starts with, and `Unknown` when no
table prefix matches.  (The table's keys are pairwise incomparable, so the
longest matching prefix is in fact the only matching one.) -/
theorem fromModel_longest_matching (m : String) :
    (∀ pt ∈ MODEL_MAP, strStartsWith m pt.1 = true →
      (∀ pt' ∈ MODEL_MAP, strStartsWith m pt'.1 = true →
        pt'.1.length ≤ pt.1.length) →
      DeviceType.fromModel m = pt.2) ∧
    ((∀ pt ∈ MODEL_MAP, strStartsWith m pt.1 = false) →
      DeviceType.fromModel m = .Unknown) := by
  constructor
  · intro pt hmem hsw _
    have hsome : (MODEL_MAP.find? (fun x => strStartsWith m x.1)).isSome := by
      rw [List.find?_isSome]
      exact ⟨pt, hmem, hsw⟩
    obtain ⟨pt0, hfind⟩ := Option.isSome_iff_exists.mp hsome
    have hmem0 : pt0 ∈ MODEL_MAP := List.mem_of_find?_eq_some hfind
    have hsw0 : strStartsWith m pt0.1 = true := by
      have h0 := List.find?_some hfind
      simpa using h0
    have heq : pt = pt0 := by
      rcases listStartsWith_total m.data pt.1.data pt0.1.data hsw hsw0 with h | h
      · exact MODEL_MAP_keys_incomparable pt hmem pt0 hmem0 h
      · exact (MODEL_MAP_keys_incomparable pt0 hmem0 pt hmem h).symm
    unfold DeviceType.fromModel
    rw [hfind, ← heq]
  · intro hnone
    have hfind : MODEL_MAP.find? (fun x => strStartsWith m x.1) = none := by
      rw [List.find?_eq_none]
      intro x hx
      simp [hnone x hx]
    unfold DeviceType.fromModel
    rw [hfind]

/-- Witness for C8: a matched model resolves to its table kind, an
unmatched one to `Unknown`. -/
theorem fromModel_longest_matching_witness :
    DeviceType.fromModel "KL420L5(US)" = .KL420L5 ∧
      DeviceType.fromModel "XYZ123" = .Unknown :=
  ⟨(fromModel_longest_matching "KL420L5(US)").1 ("KL420L5", .KL420L5)
      (by decide) (by decide) (by decide),
   (fromModel_longest_matching "XYZ123").2 (by decide)⟩

/-! ## C1 — resolution priority -/

/-- C1: `resolve_device` applies the four rules in strict order, stopping at
the first rule with a non-empty match set (first conjunct: it equals the
rule-ordered policy `resolveSpec`); in particular, whenever some entry's
effective alias exactly equals the query — even if a different entry's
identifier equals it — an exact-alias-matched entry is returned (second
conjunct). -/
theorem resolve_device_priority (all : List CatalogEntry) (q : String) :
    resolve_device all q = resolveSpec all q ∧
    (∀ e ∈ all, effAlias e = q →
      ∃ r, resolve_device all q = .ok r ∧ effAlias r = q) := by
  constructor
  · unfold resolve_device resolveSpec partialMatches
    rw [find?_eq_head_filter, find?_eq_head_filter, find?_eq_head_filter]
    cases all.filter (fun e => effAlias e == q) with
    | cons e t => rfl
    | nil =>
      cases all.filter (fun e => e.info.id == q) with
      | cons e t => rfl
      | nil =>
        cases all.filter (fun e => lowerStr (effAlias e) == lowerStr q) with
        | cons e t => rfl
        | nil => rfl
  · intro e he ha
    have hsome : (all.find? (fun e => effAlias e == q)).isSome := by
      rw [List.find?_isSome]
      exact ⟨e, he, by simp [ha]⟩
    obtain ⟨r, hr⟩ := Option.isSome_iff_exists.mp hsome
    refine ⟨r, ?_, ?_⟩
    · unfold resolve_device
      rw [hr]
    · have hp := List.find?_some hr
      simpa using hp

/-- Witness for C1: with one entry whose identifier is `socket` listed
first and another whose alias is `socket`, resolution returns an entry
whose effective alias is `socket` (the alias match, not the identifier
match). -/
theorem resolve_device_priority_witness :
    ∃ r, resolve_device
        [{ info := { deviceId := some "socket", alias_ := some "plug" },
           dtype := .HS100 },
         { info := { deviceId := some "dev-2", alias_ := some "socket" },
           dtype := .HS110 }]
        "socket" = .ok r ∧ effAlias r = "socket" :=
  (resolve_device_priority
      [{ info := { deviceId := some "socket", alias_ := some "plug" },
         dtype := .HS100 },
       { info := { deviceId := some "dev-2", alias_ := some "socket" },
         dtype := .HS110 }]
      "socket").2
    { info := { deviceId := some "dev-2", alias_ := some "socket" },
      dtype := .HS110 }
    (by decide) (by decide)

/-! ## C3 — resolution ambiguity -/

/-- C3: when no entry matches by exact alias, exact identifier or
case-insensitive exact alias, two or more case-insensitive substring
matches yield a `DeviceNotFound` error whose message lists every matching
entry's effective alias, and zero matches yield `DeviceNotFound` carrying
the query string. -/
theorem resolve_device_ambiguity (all : List CatalogEntry) (q : String)
    (h1 : ∀ e ∈ all, ¬ effAlias e = q)
    (h2 : ∀ e ∈ all, ¬ e.info.id = q)
    (h3 : ∀ e ∈ all, ¬ lowerStr (effAlias e) = lowerStr q) :
    (2 ≤ (partialMatches all q).length →
      resolve_device all q = .error (.deviceNotFound
        ("Multiple devices match '" ++ q ++ "': " ++
          String.intercalate ", " ((partialMatches all q).map effAlias)))) ∧
    (partialMatches all q = [] →
      resolve_device all q = .error (.deviceNotFound q)) := by
  have f1 : all.find? (fun e => effAlias e == q) = none :=
    List.find?_eq_none.mpr (fun e he => by simpa using h1 e he)
  have f2 : all.find? (fun e => e.info.id == q) = none :=
    List.find?_eq_none.mpr (fun e he => by simpa using h2 e he)
  have f3 : all.find? (fun e => lowerStr (effAlias e) == lowerStr q) = none :=
    List.find?_eq_none.mpr (fun e he => by simpa using h3 e he)
  constructor
  · intro hlen
    unfold resolve_device
    rw [f1, f2, f3]
    cases hpm : all.filter
        (fun e => strContains (lowerStr (effAlias e)) (lowerStr q)) with
    | nil =>
      rw [show partialMatches all q = [] from hpm] at hlen
      simp at hlen
    | cons a t =>
      cases t with
      | nil =>
        rw [show partialMatches all q = [a] from hpm] at hlen
        simp at hlen
      | cons b t2 =>
        rw [show partialMatches all q = a :: b :: t2 from hpm]
  · intro hempty
    unfold resolve_device
    rw [f1, f2, f3]
    rw [show all.filter
        (fun e => strContains (lowerStr (effAlias e)) (lowerStr q)) = []
      from hempty]

/-- Witness for C3: two distinct aliases both containing `lamp` (and
neither equal to it, by any rule) produce the disambiguation error naming
both, and an unmatched query produces the plain not-found error. -/
theorem resolve_device_ambiguity_witness :
    resolve_device
        [{ info := { deviceId := some "d1", alias_ := some "Living Lamp" },
           dtype := .HS100 },
         { info := { deviceId := some "d2", alias_ := some "Bedroom Lamp" },
           dtype := .HS103 }]
        "lamp" =
      .error (.deviceNotFound
        "Multiple devices match 'lamp': Living Lamp, Bedroom Lamp") ∧
    resolve_device
        [{ info := { deviceId := some "d1", alias_ := some "Living Lamp" },
           dtype := .HS100 }]
        "heater" = .error (.deviceNotFound "heater") :=
  ⟨(resolve_device_ambiguity
      [{ info := { deviceId := some "d1", alias_ := some "Living Lamp" },
         dtype := .HS100 },
       { info := { deviceId := some "d2", alias_ := some "Bedroom Lamp" },
         dtype := .HS103 }]
      "lamp" (by decide) (by decide) (by decide)).1 (by decide),
   (resolve_device_ambiguity
      [{ info := { deviceId := some "d1", alias_ := some "Living Lamp" },
         dtype := .HS100 }]
      "heater" (by decide) (by decide) (by decide)).2 (by decide)⟩

/-! ## C2 — cross-ecosystem deduplication -/

/-- Every entry a device contributes carries that device's record, stamped
with the processing ecosystem, and that device's identifier. -/
theorem entriesOf_fields (ct : CloudType)
    (ch : DeviceInfo → Option (List ChildInfo)) (info : DeviceInfo) :
    ∀ e ∈ entriesOf ct ch info,
      e.info.cloudType = some ct ∧ e.info.id = info.id := by
  intro e he
  unfold entriesOf at he
  split at he
  · rcases List.mem_cons.mp he with heq | hmem
    · subst heq
      exact ⟨rfl, rfl⟩
    · split at hmem
      · obtain ⟨c, _, heq⟩ := List.mem_map.mp hmem
        subst heq
        exact ⟨rfl, rfl⟩
      · simp at hmem
  · simp only [List.mem_singleton] at he
    subst he
    exact ⟨rfl, rfl⟩

/-- A processed device contributes exactly one parent entry (no sub-unit
id) with its identifier. -/
theorem entriesOf_parent_count (ct : CloudType)
    (ch : DeviceInfo → Option (List ChildInfo)) (info : DeviceInfo)
    (x : String) :
    (entriesOf ct ch info).countP
        (fun e => e.info.id == x && (e.childId == none)) =
      if info.id = x then 1 else 0 := by
  unfold entriesOf
  split
  · have h0 :
        ∀ cs : List ChildInfo,
          (cs.map (fun c =>
            ({ info := { info with cloudType := some ct }
               dtype := (DeviceType.fromModel info.model).childType
               childAlias := if c.alias_ == "" then none else some c.alias_
               childId := some c.id } : CatalogEntry))).countP
            (fun e => e.info.id == x && (e.childId == none)) = 0 := by
      intro cs
      rw [List.countP_eq_zero]
      intro e he
      obtain ⟨c, _, heq⟩ := List.mem_map.mp he
      subst heq
      simp
    split
    · rw [List.countP_cons, h0]
      by_cases hx : info.id = x <;> simp [DeviceInfo.id, hx]
    · rw [List.countP_cons]
      by_cases hx : info.id = x <;> simp [DeviceInfo.id, hx]
  · by_cases hx : info.id = x <;> simp [List.countP_cons, DeviceInfo.id, hx]

/-- Some entry of a processed device bears its identifier (the parent
entry). -/
theorem entriesOf_exists (ct : CloudType)
    (ch : DeviceInfo → Option (List ChildInfo)) (info : DeviceInfo) :
    ∃ e ∈ entriesOf ct ch info,
      e.info.id = info.id ∧ e.info.cloudType = some ct := by
  unfold entriesOf
  split
  · exact ⟨_, List.mem_cons_self _ _, rfl, rfl⟩
  · exact ⟨_, List.mem_singleton.mpr rfl, rfl, rfl⟩

/-- Entries appended for one cloud are stamped with that cloud and carry
identifiers that were not yet seen. -/
theorem collectNew_fields (ct : CloudType)
    (ch : DeviceInfo → Option (List ChildInfo)) (infos : List DeviceInfo)
    (seen : List String) :
    ∀ e ∈ collectNew ct ch infos seen,
      e.info.cloudType = some ct ∧ e.info.id ∉ seen := by
  induction infos generalizing seen with
  | nil =>
    intro e he
    simp [collectNew] at he
  | cons info rest ih =>
    intro e he
    simp only [collectNew] at he
    by_cases hc : seen.contains info.id = true
    · rw [if_pos hc] at he
      exact ih seen e he
    · rw [if_neg hc] at he
      rcases List.mem_append.mp he with hmem | hmem
      · obtain ⟨hct, hid⟩ := entriesOf_fields ct ch info e hmem
        refine ⟨hct, ?_⟩
        rw [hid]
        simpa using hc
      · obtain ⟨hct, hid⟩ := ih (info.id :: seen) e hmem
        exact ⟨hct, fun hx => hid (List.mem_cons_of_mem _ hx)⟩

/-- The seen-identifier set only grows. -/
theorem collectSeen_mono (infos : List DeviceInfo) (seen : List String)
    (x : String) (hx : x ∈ seen) : x ∈ collectSeen infos seen := by
  induction infos generalizing seen with
  | nil => simpa [collectSeen] using hx
  | cons info rest ih =>
    simp only [collectSeen]
    by_cases hc : seen.contains info.id = true
    · rw [if_pos hc]
      exact ih seen hx
    · rw [if_neg hc]
      exact ih (info.id :: seen) (List.mem_cons_of_mem _ hx)

/-- After processing a cloud, every processed device's identifier is
seen. -/
theorem collectSeen_complete (infos : List DeviceInfo) (seen : List String) :
    ∀ i ∈ infos, i.id ∈ collectSeen infos seen := by
  induction infos generalizing seen with
  | nil =>
    intro i hi
    simp at hi
  | cons info rest ih =>
    intro i hi
    simp only [collectSeen]
    rcases List.mem_cons.mp hi with heq | hmem
    · subst heq
      by_cases hc : seen.contains i.id = true
      · rw [if_pos hc]
        exact collectSeen_mono rest seen i.id (by simpa using hc)
      · rw [if_neg hc]
        exact collectSeen_mono rest (i.id :: seen) i.id
          (List.mem_cons_self _ _)
    · by_cases hc : seen.contains info.id = true
      · rw [if_pos hc]
        exact ih seen i hmem
      · rw [if_neg hc]
        exact ih (info.id :: seen) i hmem

/-- One cloud's appended entries contain exactly one parent entry for an
identifier present in its device list and not yet seen, and none for an
identifier already seen. -/
theorem collectNew_parent_count (ct : CloudType)
    (ch : DeviceInfo → Option (List ChildInfo)) (infos : List DeviceInfo)
    (seen : List String) (x : String) :
    (collectNew ct ch infos seen).countP
        (fun e => e.info.id == x && (e.childId == none)) =
      if (∃ i ∈ infos, i.id = x) ∧ x ∉ seen then 1 else 0 := by
  induction infos generalizing seen with
  | nil => simp [collectNew]
  | cons info rest ih =>
    simp only [collectNew]
    by_cases hc : seen.contains info.id = true
    · rw [if_pos hc, ih]
      have hmem : info.id ∈ seen := by simpa using hc
      by_cases h1 : (∃ i ∈ rest, i.id = x) ∧ x ∉ seen
      · rw [if_pos h1, if_pos ⟨⟨h1.1.choose,
          List.mem_cons_of_mem _ h1.1.choose_spec.1, h1.1.choose_spec.2⟩, h1.2⟩]
      · rw [if_neg h1, if_neg ?_]
        rintro ⟨⟨i, hi, hid⟩, hnx⟩
        rcases List.mem_cons.mp hi with heq | hmemr
        · subst heq
          exact hnx (hid ▸ hmem)
        · exact h1 ⟨⟨i, hmemr, hid⟩, hnx⟩
    · rw [if_neg hc, List.countP_append, entriesOf_parent_count, ih]
      have hnot : info.id ∉ seen := by simpa using hc
      by_cases hx : info.id = x
      · subst hx
        have h2 : ¬((∃ i ∈ rest, i.id = info.id) ∧ info.id ∉ info.id :: seen) :=
          fun h => h.2 (List.mem_cons_self _ _)
        have h3 : (∃ i ∈ info :: rest, i.id = info.id) ∧ info.id ∉ seen :=
          ⟨⟨info, List.mem_cons_self _ _, rfl⟩, hnot⟩
        rw [if_neg h2, if_pos h3, if_pos rfl]
      · have hiff :
            ((∃ i ∈ rest, i.id = x) ∧ x ∉ info.id :: seen) ↔
              ((∃ i ∈ info :: rest, i.id = x) ∧ x ∉ seen) := by
          constructor
          · rintro ⟨⟨i, hi, hid⟩, hnx⟩
            exact ⟨⟨i, List.mem_cons_of_mem _ hi, hid⟩,
              fun hmem => hnx (List.mem_cons_of_mem _ hmem)⟩
          · rintro ⟨⟨i, hi, hid⟩, hnx⟩
            rcases List.mem_cons.mp hi with heq | hmemr
            · exact absurd (heq ▸ hid) hx
            · refine ⟨⟨i, hmemr, hid⟩, ?_⟩
              intro hmem
              rcases List.mem_cons.mp hmem with heq | hmems
              · exact hx heq.symm
              · exact hnx hmems
        rw [if_neg hx, if_congr hiff rfl rfl, Nat.zero_add]

/-- Every flattened tuple of one cloud's fetch is stamped with that
cloud. -/
theorem fetchCloud_fields (ct : CloudType)
    (ch : DeviceInfo → Option (List ChildInfo)) (infos : List DeviceInfo) :
    ∀ d ∈ fetchCloud ct ch infos, d.1.cloudType = some ct := by
  induction infos with
  | nil =>
    intro d hd
    simp [fetchCloud] at hd
  | cons info rest ih =>
    intro d hd
    simp only [fetchCloud] at hd
    rcases List.mem_append.mp hd with hmem | hmem
    · obtain ⟨e, hme, heq⟩ := List.mem_map.mp hmem
      subst heq
      exact (entriesOf_fields ct ch info e hme).1
    · exact ih d hmem

/-- A fetched cloud list containing an identifier yields some flattened
tuple with that identifier. -/
theorem fetchCloud_exists (ct : CloudType)
    (ch : DeviceInfo → Option (List ChildInfo)) (infos : List DeviceInfo)
    (x : String) (hx : ∃ i ∈ infos, i.id = x) :
    ∃ d ∈ fetchCloud ct ch infos, d.1.id = x ∧ d.1.cloudType = some ct := by
  induction infos with
  | nil =>
    obtain ⟨i, hi, _⟩ := hx
    simp at hi
  | cons info rest ih =>
    obtain ⟨i, hi, hid⟩ := hx
    rcases List.mem_cons.mp hi with heq | hmemr
    · subst heq
      obtain ⟨e, hme, hide, hcte⟩ := entriesOf_exists ct ch i
      refine ⟨(e.info, e.dtype, e.childAlias), ?_, by rw [hide, hid], hcte⟩
      simp only [fetchCloud]
      exact List.mem_append.mpr (Or.inl (List.mem_map.mpr ⟨e, hme, rfl⟩))
    · obtain ⟨d, hd, hprop⟩ := ih ⟨i, hmemr, hid⟩
      refine ⟨d, ?_, hprop⟩
      simp only [fetchCloud]
      exact List.mem_append.mpr (Or.inr hd)

/-- C2: an identifier returned by both ecosystems' fetches yields exactly
one set of catalog entries, sourced from the Kasa ecosystem: every catalog
entry bearing it is Kasa-stamped, one such entry exists, and the resolution
catalog holds exactly one parent entry for it.  The same holds for the
`fetch_all_devices` flattening. -/
theorem cross_ecosystem_dedup (kasa tapo : List DeviceInfo)
    (chK chT : DeviceInfo → Option (List ChildInfo)) (x : String)
    (hk : ∃ i ∈ kasa, i.id = x) (_ht : ∃ i ∈ tapo, i.id = x) :
    (∀ e ∈ collect_all_devices kasa true (some tapo) chK chT,
        e.info.id = x → e.info.cloudType = some .kasa) ∧
    (∃ e ∈ collect_all_devices kasa true (some tapo) chK chT,
        e.info.id = x ∧ e.info.cloudType = some .kasa) ∧
    (collect_all_devices kasa true (some tapo) chK chT).countP
        (fun e => e.info.id == x && (e.childId == none)) = 1 ∧
    (∀ d ∈ fetch_all_devices kasa true (some tapo) chK chT,
        d.1.id = x → d.1.cloudType = some .kasa) ∧
    (∃ d ∈ fetch_all_devices kasa true (some tapo) chK chT,
        d.1.id = x ∧ d.1.cloudType = some .kasa) := by
  have hcat : collect_all_devices kasa true (some tapo) chK chT =
      collectNew .kasa chK kasa [] ++
        collectNew .tapo chT tapo (collectSeen kasa []) := by
    simp [collect_all_devices, collect_devices_for_resolution]
  have hseen : x ∈ collectSeen kasa [] := by
    obtain ⟨i, hi, hid⟩ := hk
    exact hid ▸ collectSeen_complete kasa [] i hi
  have hall : ∀ e ∈ collect_all_devices kasa true (some tapo) chK chT,
      e.info.id = x → e.info.cloudType = some .kasa := by
    intro e he hid
    rw [hcat] at he
    rcases List.mem_append.mp he with hmem | hmem
    · exact (collectNew_fields _ chK kasa [] e hmem).1
    · exact absurd (hid ▸ hseen)
        ((collectNew_fields _ chT tapo (collectSeen kasa []) e hmem).2)
  have hcount : (collect_all_devices kasa true (some tapo) chK chT).countP
      (fun e => e.info.id == x && (e.childId == none)) = 1 := by
    rw [hcat, List.countP_append, collectNew_parent_count,
      collectNew_parent_count]
    rw [if_pos ⟨hk, List.not_mem_nil x⟩,
      if_neg (fun h => h.2 hseen)]
  refine ⟨hall, ?_, hcount, ?_, ?_⟩
  · have hpos : 0 < (collect_all_devices kasa true (some tapo) chK chT).countP
        (fun e => e.info.id == x && (e.childId == none)) := by
      rw [hcount]
      exact Nat.one_pos
    obtain ⟨e, he, hpe⟩ := List.countP_pos_iff.mp hpos
    have hid : e.info.id = x := by
      have := hpe
      simp only [Bool.and_eq_true, beq_iff_eq] at this
      exact this.1
    exact ⟨e, he, hid, hall e he hid⟩
  · intro d hd hid
    unfold fetch_all_devices at hd
    rcases List.mem_append.mp hd with hmem | hmem
    · exact fetchCloud_fields _ chK kasa d hmem
    · rw [if_pos rfl] at hmem
      obtain ⟨d0, hd0, hid0, _⟩ := fetchCloud_exists .kasa chK kasa x hk
      obtain ⟨hmemT, hfil⟩ := List.mem_filter.mp hmem
      rw [hid] at hfil
      simp at hfil
      obtain ⟨di, dt, da⟩ := d0
      exact absurd hid0 (hfil di dt da hd0)
  · obtain ⟨d0, hd0, hprop⟩ := fetchCloud_exists .kasa chK kasa x hk
    refine ⟨d0, ?_, hprop⟩
    unfold fetch_all_devices
    exact List.mem_append.mpr (Or.inl hd0)

/-- Witness for C2: the identifier `A` returned by both clouds yields a
Kasa-stamped catalog entry and exactly one parent entry. -/
theorem cross_ecosystem_dedup_witness :
    (∃ e ∈ collect_all_devices
        [{ deviceId := some "A", alias_ := some "Kasa Plug",
           deviceModel := some "HS100(US)" }] true
        (some [{ deviceId := some "A", alias_ := some "Tapo Plug" },
               { deviceId := some "B", alias_ := some "Tapo Bulb" }])
        (fun _ => none) (fun _ => none),
      e.info.id = "A" ∧ e.info.cloudType = some .kasa) ∧
    (collect_all_devices
        [{ deviceId := some "A", alias_ := some "Kasa Plug",
           deviceModel := some "HS100(US)" }] true
        (some [{ deviceId := some "A", alias_ := some "Tapo Plug" },
               { deviceId := some "B", alias_ := some "Tapo Bulb" }])
        (fun _ => none) (fun _ => none)).countP
      (fun e => e.info.id == "A" && (e.childId == none)) = 1 := by
  have h := cross_ecosystem_dedup
    [{ deviceId := some "A", alias_ := some "Kasa Plug",
       deviceModel := some "HS100(US)" }]
    [{ deviceId := some "A", alias_ := some "Tapo Plug" },
     { deviceId := some "B", alias_ := some "Tapo Bulb" }]
    (fun _ => none) (fun _ => none) "A"
    ⟨{ deviceId := some "A", alias_ := some "Kasa Plug",
       deviceModel := some "HS100(US)" }, by decide, by decide⟩
    ⟨{ deviceId := some "A", alias_ := some "Tapo Plug" }, by decide, by decide⟩
  exact ⟨h.2.1, h.2.2.1⟩

/-! ## C4 — refresh-token-expired error kind -/

/-- Counterexample for C4: at a refresh response carrying the
refresh-expired business code, the result is the `tokenExpired` error kind
itself — the error taxonomy of `src/error.rs` has no separate
`RefreshTokenExpired` kind, so the result is not distinct from the
retryable `TokenExpired` kind. -/
theorem refresh_expired_is_tokenExpired_cex :
    refresh_token_handle "https://n-wap.tplinkcloud.com"
        { errorCode := ERR_REFRESH_TOKEN_EXPIRED, result := none,
          msg := some "refresh token expired" } =
      .error (.tokenExpired
        "Refresh token has expired. Run 'tplc login' to re-authenticate."
        (some ERR_REFRESH_TOKEN_EXPIRED)) := by
  rfl

/-- C4 (amended): a refresh response carrying the refresh-expired business
code yields the `TokenExpired` error kind, carrying a message demanding
interactive re-login and the business code; this is distinct from the
generic `Api` kind, but the taxonomy has no separate terminal
`RefreshTokenExpired` kind. -/
theorem refresh_expired_terminal (host : String) (r : ApiResponse)
    (h0 : r.errorCode ≠ 0) (hr : r.errorCode = ERR_REFRESH_TOKEN_EXPIRED) :
    refresh_token_handle host r =
      .error (.tokenExpired
        "Refresh token has expired. Run 'tplc login' to re-authenticate."
        (some ERR_REFRESH_TOKEN_EXPIRED)) ∧
    ∀ m c, refresh_token_handle host r ≠ .error (.api m c) := by
  have hs : r.successful = false := by
    simp [ApiResponse.successful]
    exact h0
  have heq : refresh_token_handle host r =
      .error (.tokenExpired
        "Refresh token has expired. Run 'tplc login' to re-authenticate."
        (some ERR_REFRESH_TOKEN_EXPIRED)) := by
    simp [refresh_token_handle, hs, hr]
  refine ⟨heq, ?_⟩
  intro m c
  rw [heq]
  intro hcontra
  simp at hcontra

/-- Witness for C4 (amended). -/
theorem refresh_expired_terminal_witness :
    refresh_token_handle "https://n-wap.tplinkcloud.com"
        { errorCode := ERR_REFRESH_TOKEN_EXPIRED, result := none,
          msg := none } =
      .error (.tokenExpired
        "Refresh token has expired. Run 'tplc login' to re-authenticate."
        (some ERR_REFRESH_TOKEN_EXPIRED)) :=
  (refresh_expired_terminal "https://n-wap.tplinkcloud.com"
    { errorCode := ERR_REFRESH_TOKEN_EXPIRED, result := none, msg := none }
    (by decide) (by decide)).1

/-! ## C5 — one refresh-and-retry cycle -/

/-- Counterexample for C5: a passthrough call that fails with
`TokenExpired` returns that error unchanged after exactly one client call,
even though a successful retry response is scripted next — no refresh and
no retry happen for passthrough calls (only the device-list fetch has the
refresh-and-retry cycle). -/
theorem passthrough_no_retry_cex :
    device_passthrough_script none "system" "set_relay_state"
        (Json.obj [("state", Json.num 1)])
        [.error (.tokenExpired "Auth token expired" (some ERR_TOKEN_EXPIRED)),
         .ok (some (Json.obj [("err_code", Json.num 0)]))] =
      (.error (.tokenExpired "Auth token expired" (some ERR_TOKEN_EXPIRED)),
       1) := by
  rfl

/-- C5 (amended): the device-list fetch performs at most one refresh and at
most two fetch calls; a `TokenExpired` first fetch followed by a successful
refresh yields exactly the retried call's result (any failure of the retry,
including a second `TokenExpired`, propagates unchanged), and a failed
refresh propagates the refresh error after one fetch and one refresh
attempt.  A passthrough call has no such cycle: a `TokenExpired` failure
propagates unchanged after exactly one client call. -/
theorem refresh_retry_single_cycle
    (fetchList : String → Except AppError (List Json))
    (refreshResult : Except AppError String) (token : String) :
    (fetchListWithRetry fetchList refreshResult token).2.1 ≤ 2 ∧
    (fetchListWithRetry fetchList refreshResult token).2.2 ≤ 1 ∧
    (∀ m c newToken, fetchList token = .error (.tokenExpired m c) →
      refreshResult = .ok newToken →
      fetchListWithRetry fetchList refreshResult token =
        (fetchList newToken, 2, 1)) ∧
    (∀ m c e, fetchList token = .error (.tokenExpired m c) →
      refreshResult = .error e →
      fetchListWithRetry fetchList refreshResult token = (.error e, 1, 1)) ∧
    (∀ (childId : Option String) (requestType subRequestType : String)
        (request : Json) (m : String) (c : Option Int)
        (rest : List (Except AppError (Option Json))),
      device_passthrough_script childId requestType subRequestType request
          (.error (.tokenExpired m c) :: rest) =
        (.error (.tokenExpired m c), 1)) := by
  refine ⟨?_, ?_, ?_, ?_, ?_⟩
  · unfold fetchListWithRetry
    cases hf : fetchList token with
    | ok l => simp
    | error e =>
      cases e <;> cases refreshResult <;> simp
  · unfold fetchListWithRetry
    cases hf : fetchList token with
    | ok l => simp
    | error e =>
      cases e <;> cases refreshResult <;> simp
  · intro m c newToken hf hr
    unfold fetchListWithRetry
    rw [hf, hr]
  · intro m c e hf hr
    unfold fetchListWithRetry
    rw [hf, hr]
  · intro childId requestType subRequestType request m c rest
    rfl

/-- Witness for C5 (amended): a retry that fails with a second
`TokenExpired` propagates that error after two fetches and one refresh. -/
theorem refresh_retry_single_cycle_witness :
    fetchListWithRetry
        (fun _ => .error (.tokenExpired "Auth token expired"
          (some ERR_TOKEN_EXPIRED)))
        (.ok "refreshed-token") "old-token" =
      (.error (.tokenExpired "Auth token expired" (some ERR_TOKEN_EXPIRED)),
       2, 1) :=
  (refresh_retry_single_cycle
      (fun _ => .error (.tokenExpired "Auth token expired"
        (some ERR_TOKEN_EXPIRED)))
      (.ok "refreshed-token") "old-token").2.2.1
    "Auth token expired" (some ERR_TOKEN_EXPIRED) "refreshed-token" rfl rfl

/-! ## C6 — regional discovery fallback -/

/-- Counterexample for C6: a transport-level failure of the account-status
call (here the non-2xx branch of `request_post_v2`) is propagated as an
error by `get_regional_url`, not converted into the configured-host
fallback. -/
theorem regional_discovery_transport_cex :
    get_regional_url "https://n-wap.tplinkcloud.com"
        (.error (.api "500 Internal Server Error: backend down" none)) =
      .error (.api "500 Internal Server Error: backend down" none) ∧
    get_regional_url "https://n-wap.tplinkcloud.com"
        (.error (.api "500 Internal Server Error: backend down" none)) ≠
      .ok "https://n-wap.tplinkcloud.com" := by
  exact ⟨rfl, fun h => Except.noConfusion h⟩

/-- C6 (amended): `get_regional_url` falls back to the currently configured
host when the call completes at the transport level but carries a
non-success business code or no string `appServerUrl` field; it returns the
extracted URL only on success with the field present; a transport-level
failure propagates as an error (the fallback never sees it). -/
theorem get_regional_url_fallback (host : String) (e : AppError)
    (r : ApiResponse) (url : String) :
    (get_regional_url host (.error e) = .error e) ∧
    (r.successful = false → get_regional_url host (.ok r) = .ok host) ∧
    ((r.result.bind (fun res => res.get "appServerUrl")).bind Json.asStr =
        none →
      get_regional_url host (.ok r) = .ok host) ∧
    (r.successful = true →
      (r.result.bind (fun res => res.get "appServerUrl")).bind Json.asStr =
        some url →
      get_regional_url host (.ok r) = .ok url) := by
  refine ⟨rfl, ?_, ?_, ?_⟩
  · intro hs
    simp [get_regional_url, hs]
  · intro hf
    cases hres : r.result with
    | none => simp [get_regional_url, hres]
    | some res =>
      rw [hres] at hf
      simp only [Option.some_bind] at hf
      simp [get_regional_url, hres, hf]
  · intro hs hf
    cases hres : r.result with
    | none => rw [hres] at hf; simp at hf
    | some res =>
      rw [hres] at hf
      simp only [Option.some_bind] at hf
      simp [get_regional_url, hres, hf, hs]

/-- Witness for C6 (amended): a non-success business code falls back to the
configured host; a success with the field present returns the extracted
URL. -/
theorem get_regional_url_fallback_witness :
    get_regional_url "https://n-wap.tplinkcloud.com"
        (.ok { errorCode := -20571, result := none, msg := some "account not found" }) =
      .ok "https://n-wap.tplinkcloud.com" ∧
    get_regional_url "https://n-wap.tplinkcloud.com"
        (.ok { errorCode := 0,
               result := some (Json.obj
                 [("appServerUrl", Json.str "https://eu-wap.tplinkcloud.com")]),
               msg := none }) =
      .ok "https://eu-wap.tplinkcloud.com" :=
  ⟨(get_regional_url_fallback "https://n-wap.tplinkcloud.com"
      .notAuthenticated
      { errorCode := -20571, result := none, msg := some "account not found" }
      "").2.1 (by decide),
   (get_regional_url_fallback "https://n-wap.tplinkcloud.com"
      .notAuthenticated
      { errorCode := 0,
        result := some (Json.obj
          [("appServerUrl", Json.str "https://eu-wap.tplinkcloud.com")]),
        msg := none }
      "https://eu-wap.tplinkcloud.com").2.2.2 (by decide) (by decide)⟩

/-! ## C9 — energy operations precondition -/

/-- C9: for a device kind without energy metering, each energy operation
returns `UnsupportedOperation` immediately — before any envelope is built,
and identically for every possible network call (so no call is made); for a
kind with metering the guard passes and the corresponding passthrough is
issued. -/
theorem energy_requires_emeter (dtype : DeviceType) (childId : Option String)
    (year month : Int) (call : Json → Except AppError (Option Json)) :
    (dtype.hasEmeter = false →
      get_power_usage_realtime dtype childId call =
        .error (.unsupportedOperation
          (dtype.displayName ++ " does not support energy monitoring")) ∧
      get_power_usage_day dtype childId year month call =
        .error (.unsupportedOperation
          (dtype.displayName ++ " does not support energy monitoring")) ∧
      get_power_usage_month dtype childId year call =
        .error (.unsupportedOperation
          (dtype.displayName ++ " does not support energy monitoring"))) ∧
    (dtype.hasEmeter = true →
      get_power_usage_realtime dtype childId call =
        device_passthrough childId "emeter" "get_realtime" .null call ∧
      get_power_usage_day dtype childId year month call =
        device_passthrough childId "emeter" "get_daystat"
          (.obj [("year", .num year), ("month", .num month)]) call ∧
      get_power_usage_month dtype childId year call =
        device_passthrough childId "emeter" "get_monthstat"
          (.obj [("year", .num year)]) call) := by
  constructor
  · intro h
    refine ⟨?_, ?_, ?_⟩ <;>
      simp [get_power_usage_realtime, get_power_usage_day,
        get_power_usage_month, h]
  · intro h
    refine ⟨?_, ?_, ?_⟩ <;>
      simp [get_power_usage_realtime, get_power_usage_day,
        get_power_usage_month, h]

/-- Witness for C9: the HS100 kind (no metering) is rejected for every
possible network outcome; the HS110 kind (metering) issues the realtime
passthrough. -/
theorem energy_requires_emeter_witness :
    get_power_usage_realtime .HS100 none (fun _ => .ok none) =
      .error (.unsupportedOperation
        "HS100 does not support energy monitoring") ∧
    get_power_usage_realtime .HS110 none (fun _ => .ok none) =
      device_passthrough none "emeter" "get_realtime" .null
        (fun _ => .ok none) :=
  ⟨((energy_requires_emeter .HS100 none 2024 5 (fun _ => .ok none)).1
      rfl).1,
   ((energy_requires_emeter .HS110 none 2024 5 (fun _ => .ok none)).2
      rfl).1⟩

/-! ## C10 — empty token accepted at login, rejected at load -/

/-- C10: a successful (outer code zero, and for login inner code zero)
login / MFA-verification / refresh response whose result object has no
string `token` field produces `Ok` with an empty token string rather than
an error; the empty token is rejected only when `get_auth_context` loads
the stored session and reports `NotAuthenticated`. -/
theorem empty_token_deferred_rejection (username regionalUrl host : String)
    (r : ApiResponse) (ts : TokenSet) :
    (r.errorCode = 0 → innerErrorCode (r.result.getD .null) = 0 →
      ((r.result.getD .null).index "token").asStr = none →
      login_handle username regionalUrl r =
        .ok { token := ""
              refreshToken := ((r.result.getD .null).index "refreshToken").asStr
              regionalUrl := regionalUrl }) ∧
    (r.errorCode = 0 → ((r.result.getD .null).index "token").asStr = none →
      verify_mfa_handle host r =
        .ok { token := ""
              refreshToken := ((r.result.getD .null).index "refreshToken").asStr
              regionalUrl := host }) ∧
    (r.errorCode = 0 → ((r.result.getD .null).index "token").asStr = none →
      refresh_token_handle host r =
        .ok { token := ""
              refreshToken := ((r.result.getD .null).index "refreshToken").asStr
              regionalUrl := host }) ∧
    (ts.token = "" →
      get_auth_context (.ok (some ts)) = .error .notAuthenticated) := by
  refine ⟨?_, ?_, ?_, ?_⟩
  · intro h0 hinner htok
    simp [login_handle, h0, hinner, htok]
  · intro h0 htok
    have hs : r.successful = true := by simp [ApiResponse.successful, h0]
    simp [verify_mfa_handle, hs, htok]
  · intro h0 htok
    have hs : r.successful = true := by simp [ApiResponse.successful, h0]
    simp [refresh_token_handle, hs, htok]
  · intro hts
    simp [get_auth_context, hts]

/-- Witness for C10: a fully successful login response whose result object
is empty yields an empty-token `Ok`; loading a stored session with an empty
token reports `NotAuthenticated`. -/
theorem empty_token_deferred_rejection_witness :
    login_handle "user@example.com" "https://eu-wap.tplinkcloud.com"
        { errorCode := 0, result := some (Json.obj []), msg := none } =
      .ok { token := "", refreshToken := none,
            regionalUrl := "https://eu-wap.tplinkcloud.com" } ∧
    refresh_token_handle "https://n-wap.tplinkcloud.com"
        { errorCode := 0, result := some (Json.obj []), msg := none } =
      .ok { token := "", refreshToken := none,
            regionalUrl := "https://n-wap.tplinkcloud.com" } ∧
    get_auth_context (.ok (some { token := "" })) =
      .error .notAuthenticated :=
  ⟨(empty_token_deferred_rejection "user@example.com"
      "https://eu-wap.tplinkcloud.com" "h"
      { errorCode := 0, result := some (Json.obj []), msg := none }
      { token := "" }).1 rfl (by decide) (by decide),
   (empty_token_deferred_rejection "u" "ru" "https://n-wap.tplinkcloud.com"
      { errorCode := 0, result := some (Json.obj []), msg := none }
      { token := "" }).2.2.1 rfl (by decide),
   (empty_token_deferred_rejection "u" "ru" "h"
      { errorCode := 0, result := some (Json.obj []), msg := none }
      { token := "" }).2.2.2 rfl⟩

end TplcSpec
